import Mathlib

/-!
Verification of the Parameter Synchronization Bridge in
machinad/VRCHAT_OSC_debugging_Tool (src/main.py).

This file gives a shallow embedding of the bridge's data model and the
operations named by the claims: the `Parameter` registry (a Python dict,
modelled as an insertion-ordered association list with unique names), the
outbound command handler `VRChatController.handle_message` (the "set"
branch), the inbound tracking handler `OSCManager._handle_tracking_messages`,
the per-event body of `OSCManager.process_messages`, the registry merge of
`AvatarParameterLoader` (`_filter_existing_addresses` plus `dict.update`),
the loader's reconciliation `load_avatar_params`, the avatar-definition
parser `_parse_avatar_json`, and the WebSocket fan-out
`VRChatController.broadcast`.

Python values that flow through the bridge (JSON payloads and OSC
arguments) are modelled by the `Value` type; Python floats are modelled as
exact rationals (the code only stores, forwards, parses and truncates them,
so no rounding behaviour is involved).
-/

namespace VRChatOSC

/-- Model of the Python values handled by the bridge: `None`, booleans,
ints, floats (as exact rationals), strings and lists. -/
inductive Value where
  | vnull : Value
  | vbool : Bool → Value
  | vint : Int → Value
  | vfloat : Rat → Value
  | vstr : String → Value
  | vlist : List Value → Value

/-- Numeric value of a digit list, most significant first. -/
def digitsToNat (cs : List Char) : Nat :=
  cs.foldl (fun n c => n * 10 + (c.toNat - 48)) 0

/-- Leading and trailing whitespace removal on a character list (the
whitespace stripping Python's numeric constructors perform). -/
def charTrim (cs : List Char) : List Char :=
  ((cs.dropWhile Char.isWhitespace).reverse.dropWhile Char.isWhitespace).reverse

/-- Modelled from Python's built-in `float(str)` on the plain decimal
subset (optional sign, digits, optional fractional part); exponent,
`inf`/`nan` and underscore forms are outside the model and map to `none`
(the claims only rely on plain decimals). `none` models a raised
`ValueError`. -/
def parseFloatStr (s : String) : Option Rat :=
  let core : Int → List Char → Option Rat := fun sign ds =>
    let ip := ds.takeWhile Char.isDigit
    let rest := ds.dropWhile Char.isDigit
    match rest with
    | [] => if ip.isEmpty then none else some (mkRat (sign * digitsToNat ip) 1)
    | '.' :: fp =>
      if fp.all Char.isDigit && !(ip.isEmpty && fp.isEmpty) then
        some (mkRat (sign * ((digitsToNat ip * 10 ^ fp.length + digitsToNat fp : Nat) : Int))
          (10 ^ fp.length))
      else none
    | _ => none
  match charTrim s.toList with
  | '-' :: rest => core (-1) rest
  | '+' :: rest => core 1 rest
  | cs => core 1 cs

/-- Modelled from Python's built-in `int(str)`: optional sign followed by
digits; anything else raises (`none`). -/
def parseIntStr (s : String) : Option Int :=
  let core : List Char → Option Int := fun ds =>
    if !ds.isEmpty && ds.all Char.isDigit then some ((digitsToNat ds : Int)) else none
  match charTrim s.toList with
  | '-' :: rest => (core rest).map Neg.neg
  | '+' :: rest => core rest
  | cs => core cs

/-- Truncation toward zero, the behaviour of Python's `int(float)`. -/
def ratTrunc (q : Rat) : Int :=
  if q.num < 0 then -(((-q.num).toNat / q.den : Nat) : Int)
  else ((q.num.toNat / q.den : Nat) : Int)

/-- Modelled from Python's built-in `bool(...)` (truthiness), which never
raises. -/
def pyBool : Value → Bool
  | Value.vnull => false
  | Value.vbool b => b
  | Value.vint n => !(n == 0)
  | Value.vfloat q => !(decide (q = 0))
  | Value.vstr s => !(s == "")
  | Value.vlist l => !l.isEmpty

/-- Modelled from Python's built-in `float(...)`; `none` models a raised
`TypeError`/`ValueError`. -/
def pyFloat : Value → Option Rat
  | Value.vbool b => some (if b then 1 else 0)
  | Value.vint n => some (n : Rat)
  | Value.vfloat q => some q
  | Value.vstr s => parseFloatStr s
  | _ => none

/-- Modelled from Python's built-in `int(...)`; `none` models a raised
`TypeError`/`ValueError`. -/
def pyInt : Value → Option Int
  | Value.vbool b => some (if b then 1 else 0)
  | Value.vint n => some n
  | Value.vfloat q => some (ratTrunc q)
  | Value.vstr s => parseIntStr s
  | _ => none

/-- The value conversion performed by `VRChatController.handle_message`
before `osc.send` (src/main.py lines 1710-1717): coerce by the parameter's
declared type, leave other declared types (e.g. `String`) untouched. -/
def coerceValue (t : String) (v : Value) : Option Value :=
  if t = "Float" then (pyFloat v).map Value.vfloat
  else if t = "Int" then (pyInt v).map Value.vint
  else if t = "Bool" then some (Value.vbool (pyBool v))
  else some v

/-- The `Parameter` dataclass of src/main.py (lines 30-59), field for
field; `value` defaults to `None` (`vnull`), numeric bounds are modelled
as rationals. -/
structure Parameter where
  name : String
  address : String
  param_type : String
  value : Value := Value.vnull
  min_val : Rat := 0
  max_val : Rat := 1
  is_input : Bool := false
  is_output : Bool := false
  category : String := "avatar"
  description : String := ""
  display_name : String := ""

/-- The serialized parameter dictionary sent to subscribers (the literal
dict built in `get_parameter_list`, `load_avatar_params` and
`handle_websocket`). -/
structure ParamView where
  name : String
  type : String
  address : String
  min : Rat
  max : Rat
  isInput : Bool
  isOutput : Bool
  value : Value
  category : String
  displayName : String
  description : String

/-- Serialization of one parameter, as built in src/main.py (e.g. lines
1300-1314). -/
def paramView (p : Parameter) : ParamView :=
  { name := p.name, type := p.param_type, address := p.address,
    min := p.min_val, max := p.max_val, isInput := p.is_input,
    isOutput := p.is_output, value := p.value, category := p.category,
    displayName := p.display_name, description := p.description }

/-- The JSON-shaped messages the server broadcasts to subscribers. -/
inductive Msg where
  | output : String → Value → String → Msg
  | input : String → Value → String → Msg
  | customParams : String → List ParamView → Msg
  | clearCustomParams : Msg

/-! ### Registry: Python dict semantics

`controller.parameters` is a Python dict keyed by parameter name. It is
modelled as an insertion-ordered list of `Parameter`s with unique names:
lookup returns the first entry with the name, writing to an existing key
replaces it in place, writing a fresh key appends. -/

/-- Membership test `name in dict`. -/
def hasName (reg : List Parameter) (n : String) : Bool :=
  reg.any (fun p => p.name == n)

/-- Dict lookup `dict[name]`. -/
def dictGet (reg : List Parameter) (n : String) : Option Parameter :=
  reg.find? (fun p => p.name == n)

/-- Dict write `dict[p.name] = p`: replace in place if the key exists,
append otherwise. -/
def dictSet (reg : List Parameter) (p : Parameter) : List Parameter :=
  if hasName reg p.name then reg.map (fun q => if q.name == p.name then p else q)
  else reg ++ [p]

/-- Python `dict.update(other)`: write every entry of `other` in order. -/
def dictUpdate (reg : List Parameter) (ps : List Parameter) : List Parameter :=
  ps.foldl dictSet reg

/-- Python `del dict[n]` (guarded by `if n in dict` in the source). -/
def dictDelete (reg : List Parameter) (n : String) : List Parameter :=
  reg.filter (fun p => !(p.name == n))

/-! ### Outbound command handler (`VRChatController.handle_message`, "set") -/

/-- The "set" branch of `VRChatController.handle_message`
(src/main.py lines 1702-1728). Returns the updated registry, the list of
`osc.send(address, value)` calls performed, and the broadcast event
emitted (if any). The raw value is stored first; if the coercion raises
(`none`), the stored value stays but no send and no broadcast happen,
mirroring the Python exception cutting the handler short. -/
def handleSet (reg : List Parameter) (name : String) (value : Value) :
    List Parameter × List (String × Value) × Option Msg :=
  match dictGet reg name with
  | none => (reg, [], none)
  | some param =>
    let reg1 := dictSet reg { param with value := value }
    match coerceValue param.param_type value with
    | none => (reg1, [], none)
    | some sv => (reg1, [(param.address, sv)], some (Msg.input name value param.category))

/-! ### Broadcast hub (`VRChatController.broadcast`) -/

/-- Subscriber connections, identified by a numeric handle. -/
abbrev WS := Nat

/-- The delivery loop of `VRChatController.broadcast` (src/main.py lines
1627-1633): attempt `send_json` to each subscriber in turn, collecting the
attempted, successfully-delivered and failed ones. `ok w` models whether
`ws.send_json` succeeds for subscriber `w`. -/
def broadcastPass (ok : WS → Bool) : List WS → List WS × List WS × List WS
  | [] => ([], [], [])
  | w :: ws =>
    let r := broadcastPass ok ws
    if ok w then (w :: r.1, w :: r.2.1, r.2.2) else (w :: r.1, r.2.1, w :: r.2.2)

/-- `VRChatController.broadcast` (src/main.py lines 1618-1635): early
return on an empty subscriber set, otherwise one full delivery pass
followed by `self.websockets -= disconnected`. Returns (attempted,
received, new live set). -/
def broadcastSet (subs : List WS) (ok : WS → Bool) : List WS × List WS × List WS :=
  if subs.isEmpty then ([], [], subs)
  else
    let r := broadcastPass ok subs
    (r.1, r.2.1, subs.filter (fun w => !(r.2.2.contains w)))

/-! ### Inbound dispatcher and dispatch loop (`OSCManager`) -/

/-- An entry of the message queue: `(category, address, value)`. -/
abbrev QueueItem := String × String × Value

/-- `OSCManager._handle_tracking_messages` (src/main.py lines 1456-1468):
notifications with fewer than six arguments are dropped; otherwise the
first six arguments are enqueued as one tracking tuple. (The
`call_soon_threadsafe` hand-off is modelled as returning the enqueued
item.) -/
def handleTrackingMessages (address : String) (args : List Value) : Option QueueItem :=
  if args.length < 6 then none
  else some ("tracking", address, Value.vlist (args.take 6))

/-- What one iteration of the resolution loop does to the parameter under
the cursor. -/
inductive ScanAction where
  | skip : ScanAction
  | updateContinue : Parameter → Msg → ScanAction
  | updateBreak : Parameter → Msg → ScanAction

/-- One iteration of the parameter-resolution loop inside
`OSCManager.process_messages` (src/main.py lines 1498-1522): skip on
category mismatch; for a tracking tuple update the parameter when its
address matches and its `WIKI_PARAMETERS` index (default 0, looked up by
`wikiIndex`) is within the tuple, then keep scanning; otherwise update the
first address match and stop (`break`). -/
def scanStep (wikiIndex : String → Nat) (category address : String) (value : Value)
    (p : Parameter) : ScanAction :=
  if p.category = category then
    if category = "tracking" then
      match value with
      | Value.vlist tup =>
        if p.address = address then
          if wikiIndex p.name < tup.length then
            ScanAction.updateContinue
              { p with value := tup.getD (wikiIndex p.name) Value.vnull }
              (Msg.output p.name (tup.getD (wikiIndex p.name) Value.vnull) category)
          else ScanAction.skip
        else ScanAction.skip
      | _ =>
        if p.address = address then
          ScanAction.updateBreak { p with value := value }
            (Msg.output p.name value category)
        else ScanAction.skip
    else
      if p.address = address then
        ScanAction.updateBreak { p with value := value }
          (Msg.output p.name value category)
      else ScanAction.skip
  else ScanAction.skip

/-- The full resolution loop of `OSCManager.process_messages` for one
dequeued `(category, address, value)` event: fold `scanStep` over the
registry in order, honoring the `break` of the non-tracking branch.
Returns the updated registry and the broadcast events emitted, in order. -/
def processScan (wikiIndex : String → Nat) (category address : String) (value : Value) :
    List Parameter → List Parameter × List Msg
  | [] => ([], [])
  | p :: rest =>
    match scanStep wikiIndex category address value p with
    | ScanAction.skip =>
      let cont := processScan wikiIndex category address value rest
      (p :: cont.1, cont.2)
    | ScanAction.updateContinue p' m =>
      let cont := processScan wikiIndex category address value rest
      (p' :: cont.1, m :: cont.2)
    | ScanAction.updateBreak p' m => (p' :: rest, [m])

/-- The componentIndex lookup actually used by the code: a declared index
when `WIKI_PARAMETERS` has one for the name, `0` otherwise. -/
def wikiIndexOf (decl : String → Option Nat) (n : String) : Nat :=
  (decl n).getD 0

/-- Characterization predicate for claim C2: a parameter is hit by a
tracking tuple at `address` exactly when its address matches and its
declared componentIndex is within the tuple length. -/
def trackingHit (decl : String → Option Nat) (address : String) (tupLen : Nat)
    (p : Parameter) : Bool :=
  p.address == address &&
    (match decl p.name with
     | some idx => decide (idx < tupLen)
     | none => false)

/-- The update a hit parameter receives: the tuple component at its own
declared componentIndex. -/
def trackingNewValue (decl : String → Option Nat) (tup : List Value)
    (p : Parameter) : Parameter :=
  { p with value := tup.getD (wikiIndexOf decl p.name) Value.vnull }

/-! ### Avatar parameter loader (`AvatarParameterLoader`) -/

/-- One `input`/`output` spec of an avatar-definition parameter entry. -/
structure IOSpec where
  address : String
  type : String

/-- One entry of the `parameters` array of an avatar definition file.
`minOverride`/`maxOverride` model `min`/`max` keys the JSON file may
carry; `_parse_avatar_json` never reads them. -/
structure AvatarDef where
  name : Option String := none
  input : Option IOSpec := none
  output : Option IOSpec := none
  minOverride : Option Rat := none
  maxOverride : Option Rat := none

/-- A successfully JSON-decoded avatar definition file:
`{name, parameters:[...]}` (either key may be absent). -/
structure AvatarJson where
  name : Option String := none
  parameters : List AvatarDef := []

/-- `AvatarParameterLoader._get_default_range` (src/main.py lines
1143-1157): Bool gives (0, 1), Int gives (0, 20), everything else —
including Float — gives (0.0, 1.0). -/
def getDefaultRange (t : String) : Rat × Rat :=
  if t = "Bool" then (0, 1)
  else if t = "Int" then (0, 20)
  else (0, 1)

/-- The per-entry body of the parsing loop in
`AvatarParameterLoader._parse_avatar_json` (src/main.py lines 1177-1213):
skip entries with a missing or empty name and entries with neither an
`input` nor an `output` spec; prefer the `input` spec's address and type;
bounds come from `getDefaultRange` only. -/
def parseParamDef (avatarName : String) (d : AvatarDef) : Option Parameter :=
  match d.name with
  | none => none
  | some n =>
    if n = "" then none
    else
      let build := fun (spec : IOSpec) (isIn isOut : Bool) =>
        let r := getDefaultRange spec.type
        { name := "Custom_" ++ n, address := spec.address, param_type := spec.type,
          value := Value.vnull, min_val := r.1, max_val := r.2,
          is_input := isIn, is_output := isOut, category := "avatar",
          description := "自定义参数: " ++ avatarName, display_name := n : Parameter }
      match d.input with
      | some i => some (build i true d.output.isSome)
      | none =>
        match d.output with
        | some o => some (build o false true)
        | none => none

/-- `AvatarParameterLoader._parse_avatar_json` after a successful
`json.load` (src/main.py lines 1172-1218): the avatar name defaults to
"Unknown", and the parsed parameters form a dict keyed by the prefixed
name. -/
def parseAvatarJsonDef (j : AvatarJson) : String × List Parameter :=
  let avatarName := j.name.getD "Unknown"
  (avatarName,
   j.parameters.foldl
     (fun acc d =>
        match parseParamDef avatarName d with
        | none => acc
        | some p => dictSet acc p) [])

/-- `AvatarParameterLoader._filter_existing_addresses` (src/main.py lines
1224-1243): drop every incoming parameter whose address is already
claimed by any registered parameter. -/
def filterExistingAddresses (reg : List Parameter) (ps : List Parameter) : List Parameter :=
  ps.filter (fun p => !(reg.any (fun q => q.address == p.address)))

/-- The registry merge performed by `load_avatar_params` steps 4-5
(src/main.py lines 1287-1295): filter out claimed addresses, then
`controller.parameters.update(accepted)`. Returns the merged registry and
the accepted subset. -/
def mergeDynamic (reg : List Parameter) (ps : List Parameter) :
    List Parameter × List Parameter :=
  let accepted := filterExistingAddresses reg ps
  (dictUpdate reg accepted, accepted)

/-- The mutable state touched by the loader: `controller.parameters`, the
loader's `custom_params`, `current_avatar_id`, `current_avatar_name`, and
the ordered log of broadcasts issued (the subscriber-visible effects). -/
structure LoaderState where
  parameters : List Parameter
  custom_params : List Parameter := []
  current_avatar_id : Option String := none
  current_avatar_name : String := ""
  log : List Msg := []

/-- Outcome of locating and reading `<avatars_path>/<avatar_id>.json`. -/
inductive FileResult where
  | missing : FileResult
  | malformed : FileResult
  | parsed : AvatarJson → FileResult

/-- The filesystem environment the loader consults:
`_get_vrchat_osc_path` returns a path or `None` (unset `USERPROFILE`,
missing OSC directory, no `usr_*` folder, missing `Avatars` folder all
collapse to `None` in the source), and per avatar id the definition file
is missing, malformed (`_parse_avatar_json` returns `None`) or parsed. -/
structure Env where
  avatarsPath : Option String
  file : String → FileResult

/-- `AvatarParameterLoader.clear_custom_params` (src/main.py lines
1324-1340): no-op when no custom parameters are loaded; otherwise delete
each of them from the registry, broadcast `clear_custom_params`, and
empty the set. -/
def clearCustomParams (s : LoaderState) : LoaderState :=
  if s.custom_params.isEmpty then s
  else
    { s with
      parameters := s.custom_params.foldl (fun reg p => dictDelete reg p.name) s.parameters,
      log := s.log ++ [Msg.clearCustomParams],
      custom_params := [] }

/-- The teardown-and-load cycle of `AvatarParameterLoader.load_avatar_params`
(src/main.py lines 1262-1322): everything after the same-id guard. -/
def teardownAndLoad (env : Env) (s : LoaderState) (avatar_id : String) :
    Bool × LoaderState :=
  let s1 := clearCustomParams s
  let s2 := { s1 with current_avatar_id := some avatar_id }
  match env.avatarsPath with
  | none => (false, s2)
  | some _ =>
    match env.file avatar_id with
    | FileResult.missing => (false, s2)
    | FileResult.malformed => (false, s2)
    | FileResult.parsed j =>
      let parsed := parseAvatarJsonDef j
      let s3 := { s2 with current_avatar_name := parsed.1 }
      let accepted := filterExistingAddresses s3.parameters parsed.2
      let s4 := { s3 with custom_params := accepted }
      if accepted.isEmpty then (false, s4)
      else
        (true,
         { s4 with
           parameters := dictUpdate s4.parameters accepted,
           log := s4.log ++ [Msg.customParams parsed.1 (accepted.map paramView)] })

/-- `AvatarParameterLoader.load_avatar_params` (src/main.py lines
1245-1322): a request for the currently active id returns success
immediately; otherwise run the teardown-and-load cycle. -/
def loadAvatarParams (env : Env) (s : LoaderState) (avatar_id : String) :
    Bool × LoaderState :=
  if s.current_avatar_id = some avatar_id then (true, s)
  else teardownAndLoad env s avatar_id

/-! ### Spec-side statements used by corrected claims -/

/-- Bounds as claim C7 words them: the type-derived defaults unless the
definition itself overrides them. This definition follows the claim's
words, not the source; the source ignores the overrides. -/
def claimedBounds (d : AvatarDef) (t : String) : Rat × Rat :=
  ((d.minOverride).getD (getDefaultRange t).1,
   (d.maxOverride).getD (getDefaultRange t).2)

/-- Claim C7 as stated: a definition with both specs and differing
addresses yields a parameter with the inbound address and type, and with
`claimedBounds` (defaults unless overridden). -/
def claimC7 : Prop :=
  ∀ (avatarName : String) (d : AvatarDef) (i o : IOSpec) (p : Parameter),
    d.input = some i → d.output = some o → i.address ≠ o.address →
    parseParamDef avatarName d = some p →
    p.address = i.address ∧ p.param_type = i.type ∧
    p.min_val = (claimedBounds d i.type).1 ∧ p.max_val = (claimedBounds d i.type).2

/-- Claim C8 as stated: when discovery or parsing fails, the loader
returns failure and the state is exactly the teardown state — no session
change beyond the teardown already performed. -/
def claimC8 : Prop :=
  ∀ (env : Env) (s : LoaderState) (avatar_id : String),
    s.current_avatar_id ≠ some avatar_id →
    (env.avatarsPath = none ∨ env.file avatar_id = FileResult.missing ∨
      env.file avatar_id = FileResult.malformed) →
    loadAvatarParams env s avatar_id = (false, clearCustomParams s)

/-! ### Concrete fixtures (entries of `WIKI_PARAMETERS` as `load_parameters`
builds them, and small loader inputs) used by the witnesses -/

/-- `Input_Jump` as `load_parameters` builds it from `WIKI_PARAMETERS`
(src/main.py lines 159-165 and 1343-1372). -/
def inputJump : Parameter :=
  { name := "Input_Jump", address := "/input/Jump", param_type := "Bool",
    min_val := 0, max_val := 1, is_input := true, is_output := false,
    category := "input", description := "跳跃动作", display_name := "跳跃" }

/-- `Input_Horizontal` as `load_parameters` builds it (src/main.py lines
67-75). -/
def inputHorizontal : Parameter :=
  { name := "Input_Horizontal", address := "/input/Horizontal", param_type := "Float",
    min_val := -1, max_val := 1, is_input := true, is_output := false,
    category := "input", description := "左右移动控制", display_name := "水平移动" }

/-- `Tracking_HeadPosX` (componentIndex 0) as `load_parameters` builds it
(src/main.py lines 880-889). -/
def trackingHeadPosX : Parameter :=
  { name := "Tracking_HeadPosX", address := "/tracking/vrsystem/head/pose",
    param_type := "Float", min_val := -10, max_val := 10,
    is_input := false, is_output := true, category := "tracking",
    description := "头部X轴位置", display_name := "头部位置X" }

/-- `Tracking_HeadRotX` (componentIndex 3) as `load_parameters` builds it
(src/main.py lines 910-919). -/
def trackingHeadRotX : Parameter :=
  { name := "Tracking_HeadRotX", address := "/tracking/vrsystem/head/pose",
    param_type := "Float", min_val := -180, max_val := 180,
    is_input := false, is_output := true, category := "tracking",
    description := "头部X轴旋转", display_name := "头部旋转X" }

/-- The `WIKI_PARAMETERS` componentIndex declarations restricted to the
witness registry: the two head-pose parameters above declare indices 0
and 3, nothing else declares one. -/
def declW : String → Option Nat := fun n =>
  if n = "Tracking_HeadPosX" then some 0
  else if n = "Tracking_HeadRotX" then some 3
  else none

/-- Two camera parameters sharing one address, to exercise
first-match-wins resolution. -/
def cameraA : Parameter :=
  { name := "Camera_A", address := "/usercamera/Zoom", param_type := "Float",
    min_val := 0, max_val := 1, is_input := true, is_output := true,
    category := "camera", display_name := "A" }

/-- Second camera parameter on the same address as `cameraA`. -/
def cameraB : Parameter :=
  { name := "Camera_B", address := "/usercamera/Zoom", param_type := "Float",
    min_val := 0, max_val := 1, is_input := true, is_output := true,
    category := "camera", display_name := "B" }

/-- A dynamic parameter with a fresh address. -/
def customFresh : Parameter :=
  { name := "Custom_Foo", address := "/avatar/parameters/Foo", param_type := "Float",
    min_val := 0, max_val := 1, is_input := true, is_output := false,
    category := "avatar", description := "自定义参数: Ava", display_name := "Foo" }

/-- A dynamic parameter whose address collides with `inputJump`. -/
def customClash : Parameter :=
  { name := "Custom_Clash", address := "/input/Jump", param_type := "Float",
    min_val := 0, max_val := 1, is_input := true, is_output := false,
    category := "avatar", description := "自定义参数: Ava", display_name := "Clash" }

/-- An environment in which OSC-path discovery fails. -/
def envNoPath : Env := { avatarsPath := none, file := fun _ => FileResult.missing }

/-- A loader state with an active session id `avtr_a` and no dynamic
parameters. -/
def stateA : LoaderState :=
  { parameters := [inputJump], custom_params := [],
    current_avatar_id := some "avtr_a", current_avatar_name := "", log := [] }

/-- An avatar definition entry carrying both specs with differing
addresses plus explicit bounds overrides. -/
def defOverride : AvatarDef :=
  { name := some "Foo",
    input := some { address := "/avatar/parameters/Foo", type := "Float" },
    output := some { address := "/avatar/other/Foo", type := "Int" },
    minOverride := some 5, maxOverride := some 10 }

/-- A six-component pose tuple as delivered on a tracking address. -/
def trackingTuple : List Value :=
  [Value.vfloat (mkRat 1 1), Value.vfloat (mkRat 2 1), Value.vfloat (mkRat 3 1),
   Value.vfloat (mkRat 4 1), Value.vfloat (mkRat 5 1), Value.vfloat (mkRat 6 1)]

/-- A small registry slice for the tracking witness: one input parameter
and the two head-pose components with declared indices 0 and 3. -/
def trackingRegistry : List Parameter :=
  [inputJump, trackingHeadPosX, trackingHeadRotX]

/-! ### Helper lemmas -/

theorem processScan_nil (wikiIndex : String → Nat) (category address : String)
    (value : Value) :
    processScan wikiIndex category address value [] = ([], []) := rfl

theorem processScan_cons (wikiIndex : String → Nat) (category address : String)
    (value : Value) (p : Parameter) (rest : List Parameter) :
    processScan wikiIndex category address value (p :: rest) =
      match scanStep wikiIndex category address value p with
      | ScanAction.skip =>
        (p :: (processScan wikiIndex category address value rest).1,
         (processScan wikiIndex category address value rest).2)
      | ScanAction.updateContinue p' m =>
        (p' :: (processScan wikiIndex category address value rest).1,
         m :: (processScan wikiIndex category address value rest).2)
      | ScanAction.updateBreak p' m => (p' :: rest, [m]) := rfl

theorem broadcastPass_attempted (ok : WS → Bool) (l : List WS) :
    (broadcastPass ok l).1 = l := by
  induction l with
  | nil => rfl
  | cons w ws ih => by_cases h : ok w <;> simp [broadcastPass, h, ih]

theorem broadcastPass_received (ok : WS → Bool) (l : List WS) :
    (broadcastPass ok l).2.1 = l.filter ok := by
  induction l with
  | nil => rfl
  | cons w ws ih => by_cases h : ok w <;> simp [broadcastPass, List.filter_cons, h, ih]

theorem broadcastPass_failed (ok : WS → Bool) (l : List WS) :
    (broadcastPass ok l).2.2 = l.filter (fun w => !ok w) := by
  induction l with
  | nil => rfl
  | cons w ws ih => by_cases h : ok w <;> simp [broadcastPass, List.filter_cons, h, ih]

theorem length_filter_ne (k : WS) (l : List WS) (hnd : l.Nodup) (hk : k ∈ l) :
    (l.filter (fun w => w != k)).length + 1 = l.length := by
  induction l with
  | nil => cases hk
  | cons x xs ih =>
    rcases List.nodup_cons.mp hnd with ⟨hx, hnd'⟩
    rcases List.mem_cons.mp hk with h | h
    · subst h
      have hself : xs.filter (fun w => w != k) = xs := by
        apply List.filter_eq_self.mpr
        intro a ha
        simp only [bne_iff_ne, ne_eq, decide_eq_true_eq]
        rintro rfl
        exact hx ha
      simp [List.filter_cons, hself]
    · have hxk : ¬(x = k) := by rintro rfl; exact hx h
      have hlen := ih hnd' h
      have hcons : (x :: xs).filter (fun w => w != k) =
          x :: xs.filter (fun w => w != k) := by
        simp [List.filter_cons, bne_iff_ne, hxk]
      rw [hcons, List.length_cons, List.length_cons]
      omega

/-- C6: for a broadcast over a live set of N distinct subscribers in which
delivery fails for exactly one subscriber `k`, delivery is attempted to
all N subscribers, every subscriber other than `k` receives the message,
and the live set afterwards is the original minus `k`, of size N-1. -/
theorem broadcast_prunes_failed_subscriber (subs : List WS) (ok : WS → Bool) (k : WS)
    (hnd : subs.Nodup) (hk : k ∈ subs) (hkf : ok k = false)
    (hrest : ∀ w ∈ subs, w ≠ k → ok w = true) :
    (broadcastSet subs ok).1 = subs ∧
    (broadcastSet subs ok).2.1 = subs.filter (fun w => w != k) ∧
    (broadcastSet subs ok).2.2 = subs.filter (fun w => w != k) ∧
    (broadcastSet subs ok).2.2.length + 1 = subs.length := by
  have hne : subs.isEmpty = false := by
    cases subs with
    | nil => cases hk
    | cons a l => rfl
  have hok_ne : ∀ w ∈ subs, ok w = (w != k) := by
    intro w hw
    by_cases hwk : w = k
    · subst hwk; simp [hkf]
    · simp [hrest w hw hwk, bne_iff_ne, hwk]
  have hrec : (broadcastPass ok subs).2.1 = subs.filter (fun w => w != k) := by
    rw [broadcastPass_received]
    exact List.filter_congr hok_ne
  have hdis : (broadcastPass ok subs).2.2 = subs.filter (fun w => w == k) := by
    rw [broadcastPass_failed]
    apply List.filter_congr
    intro w hw
    by_cases hwk : w = k
    · subst hwk; simp [hkf]
    · simp [hrest w hw hwk, hwk]
  have hlive : subs.filter (fun w => !((broadcastPass ok subs).2.2.contains w)) =
      subs.filter (fun w => w != k) := by
    simp only [hdis]
    apply List.filter_congr
    intro w hw
    by_cases hwk : w = k
    · subst hwk
      have hmem : w ∈ subs.filter (fun v => v == w) := List.mem_filter.mpr ⟨hw, by simp⟩
      simp [List.contains, hmem]
    · have hmem : w ∉ subs.filter (fun v => v == k) := by
        intro hmm
        exact hwk (by simpa using (List.mem_filter.mp hmm).2)
      simp [List.contains, hmem, bne_iff_ne, hwk]
  refine ⟨?_, ?_, ?_, ?_⟩
  · simp [broadcastSet, hne, broadcastPass_attempted]
  · simp only [broadcastSet, hne, Bool.false_eq_true, if_false]
    exact hrec
  · simp only [broadcastSet, hne, Bool.false_eq_true, if_false]
    exact hlive
  · simp only [broadcastSet, hne, Bool.false_eq_true, if_false]
    rw [hlive]
    exact length_filter_ne k subs hnd hk

/-- Witness for C6 at subscribers `[0, 1, 2]` with subscriber 1 failing. -/
theorem broadcast_prunes_failed_subscriber_witness :
    (broadcastSet [0, 1, 2] (fun w => w != 1)).1 = [0, 1, 2] ∧
    (broadcastSet [0, 1, 2] (fun w => w != 1)).2.1 = [0, 2] ∧
    (broadcastSet [0, 1, 2] (fun w => w != 1)).2.2 = [0, 2] ∧
    (broadcastSet [0, 1, 2] (fun w => w != 1)).2.2.length + 1 = 3 := by
  have h := broadcast_prunes_failed_subscriber [0, 1, 2] (fun w => w != 1) 1
    (by decide) (by decide) (by decide) (by decide)
  exact ⟨h.1, h.2.1.trans (by decide), h.2.2.1.trans (by decide), h.2.2.2⟩

theorem find?_map_replace (nm : String) (p' : Parameter) (hp' : (p'.name == nm) = true)
    (reg : List Parameter) (param : Parameter)
    (h : reg.find? (fun p => p.name == nm) = some param) :
    (reg.map (fun q => if q.name == p'.name then p' else q)).find?
      (fun p => p.name == nm) = some p' := by
  induction reg with
  | nil => cases h
  | cons q rest ih =>
    by_cases hq : (q.name == nm) = true
    · have hqeq : q.name = nm := eq_of_beq hq
      have hpe : p'.name = nm := eq_of_beq hp'
      have hhead : (q.name == p'.name) = true := by simp [hqeq, hpe]
      simp only [List.map_cons, hhead, if_true]
      exact List.find?_cons_of_pos _ hp'
    · have h' : rest.find? (fun p => p.name == nm) = some param := by
        rwa [List.find?_cons_of_neg _ (by simpa using hq)] at h
      have hpe : p'.name = nm := eq_of_beq hp'
      have hhead : (q.name == p'.name) = false := by
        rw [hpe]
        simpa using hq
      simp only [List.map_cons, hhead, Bool.false_eq_true, if_false]
      rw [List.find?_cons_of_neg _ (by simpa using hq)]
      exact ih h'

theorem dictGet_dictSet_update (reg : List Parameter) (nm : String) (param p' : Parameter)
    (h : dictGet reg nm = some param) (hname : p'.name = param.name) :
    dictGet (dictSet reg p') nm = some p' := by
  have h0 : reg.find? (fun p => p.name == nm) = some param := h
  have hpn : (param.name == nm) = true :=
    List.find?_some (p := fun q : Parameter => q.name == nm) h0
  have hmem : param ∈ reg := List.mem_of_find?_eq_some h0
  have hp' : (p'.name == nm) = true := by rw [hname]; exact hpn
  have hhas : hasName reg p'.name = true := by
    unfold hasName
    rw [List.any_eq_true]
    exact ⟨param, hmem, by simp [hname]⟩
  have hset : dictSet reg p' = reg.map (fun q => if q.name == p'.name then p' else q) := by
    simp [dictSet, hhas]
  rw [hset]
  exact find?_map_replace nm p' hp' reg param h0

/-- Fan-out when every delivery succeeds: everyone attempted, everyone
receives, nobody is pruned. -/
theorem broadcastSet_all_ok (subs : List WS) (ok : WS → Bool)
    (hok : ∀ w ∈ subs, ok w = true) :
    (broadcastSet subs ok).1 = subs ∧ (broadcastSet subs ok).2.1 = subs ∧
    (broadcastSet subs ok).2.2 = subs := by
  by_cases hnil : subs = []
  · subst hnil
    simp [broadcastSet]
  · have hemp : subs.isEmpty = false := by
      cases subs with
      | nil => exact absurd rfl hnil
      | cons a l => rfl
    have hflt : subs.filter ok = subs := List.filter_eq_self.mpr hok
    have hdis : (broadcastPass ok subs).2.2 = [] := by
      rw [broadcastPass_failed]
      apply List.filter_eq_nil_iff.mpr
      intro a ha
      simp [hok a ha]
    refine ⟨?_, ?_, ?_⟩
    · simp [broadcastSet, hemp, broadcastPass_attempted]
    · simp only [broadcastSet, hemp, Bool.false_eq_true, if_false]
      rw [broadcastPass_received]
      exact hflt
    · simp [broadcastSet, hemp, hdis]

/-- C1: a Set command whose name resolves performs exactly one transport
send, at the parameter's address, carrying the value coerced to the
parameter's declared type, and emits exactly one input broadcast that is
delivered to every live subscriber — including the issuer. -/
theorem set_command_roundtrip (reg : List Parameter) (name : String) (value : Value)
    (param : Parameter) (sv : Value) (subs : List WS) (ok : WS → Bool) (issuer : WS)
    (h1 : dictGet reg name = some param)
    (h2 : coerceValue param.param_type value = some sv)
    (hok : ∀ w ∈ subs, ok w = true) (hiss : issuer ∈ subs) :
    (handleSet reg name value).2.1 = [(param.address, sv)] ∧
    (handleSet reg name value).2.2 = some (Msg.input name value param.category) ∧
    (broadcastSet subs ok).1 = subs ∧
    (broadcastSet subs ok).2.1 = subs ∧
    issuer ∈ (broadcastSet subs ok).2.1 ∧
    (broadcastSet subs ok).2.2 = subs := by
  have hbc := broadcastSet_all_ok subs ok hok
  refine ⟨by simp [handleSet, h1, h2], by simp [handleSet, h1, h2],
    hbc.1, hbc.2.1, ?_, hbc.2.2⟩
  rw [hbc.2.1]
  exact hiss

/-- Witness for C1: the spec's own round-trip example — setting
`Input_Jump` to `true` sends `("/input/Jump", true)` once and broadcasts
one input event, received by both subscribers including the issuer. -/
theorem set_command_roundtrip_witness :
    dictGet [inputJump] "Input_Jump" = some inputJump ∧
    (handleSet [inputJump] "Input_Jump" (Value.vbool true)).2.1 =
      [("/input/Jump", Value.vbool true)] ∧
    (handleSet [inputJump] "Input_Jump" (Value.vbool true)).2.2 =
      some (Msg.input "Input_Jump" (Value.vbool true) "input") ∧
    (broadcastSet [0, 1] (fun _ => true)).2.1 = [0, 1] ∧
    (0 : WS) ∈ (broadcastSet [0, 1] (fun _ => true)).2.1 := by
  have h := set_command_roundtrip [inputJump] "Input_Jump" (Value.vbool true) inputJump
    (Value.vbool true) [0, 1] (fun _ => true) 0 rfl rfl (fun w _ => rfl) (by decide)
  exact ⟨rfl, h.1, h.2.1, h.2.2.2.1, h.2.2.2.2.1⟩

/-- C10: an accepted Set command stores the raw value in the registry and
broadcasts the raw value; only the transport send carries the coerced
value. -/
theorem set_stores_raw_value (reg : List Parameter) (nm : String) (value : Value)
    (param : Parameter) (sv : Value)
    (h1 : dictGet reg nm = some param)
    (h2 : coerceValue param.param_type value = some sv) :
    dictGet (handleSet reg nm value).1 nm = some { param with value := value } ∧
    (handleSet reg nm value).2.2 = some (Msg.input nm value param.category) ∧
    (handleSet reg nm value).2.1 = [(param.address, sv)] := by
  have hreg : (handleSet reg nm value).1 = dictSet reg { param with value := value } := by
    simp [handleSet, h1, h2]
  refine ⟨?_, by simp [handleSet, h1, h2], by simp [handleSet, h1, h2]⟩
  rw [hreg]
  exact dictGet_dictSet_update reg nm param _ h1 rfl

/-- Witness for C10: a Set of the numeric string "0.5" on the Float
parameter `Input_Horizontal` stores and broadcasts the string itself,
while the transport send carries the float 1/2. -/
theorem set_stores_raw_value_witness :
    coerceValue inputHorizontal.param_type (Value.vstr "0.5") =
      some (Value.vfloat (mkRat 1 2)) ∧
    dictGet (handleSet [inputHorizontal] "Input_Horizontal" (Value.vstr "0.5")).1
      "Input_Horizontal" = some { inputHorizontal with value := Value.vstr "0.5" } ∧
    (handleSet [inputHorizontal] "Input_Horizontal" (Value.vstr "0.5")).2.2 =
      some (Msg.input "Input_Horizontal" (Value.vstr "0.5") "input") ∧
    (handleSet [inputHorizontal] "Input_Horizontal" (Value.vstr "0.5")).2.1 =
      [("/input/Horizontal", Value.vfloat (mkRat 1 2))] := by
  have hf : pyFloat (Value.vstr "0.5") = some (mkRat 1 2) := by decide
  have h2 : coerceValue inputHorizontal.param_type (Value.vstr "0.5") =
      some (Value.vfloat (mkRat 1 2)) := by
    simp [inputHorizontal, coerceValue, hf]
  have h := set_stores_raw_value [inputHorizontal] "Input_Horizontal" (Value.vstr "0.5")
    inputHorizontal (Value.vfloat (mkRat 1 2)) rfl h2
  exact ⟨h2, h.1, h.2.1, h.2.2⟩

theorem dictSet_append_fresh (reg : List Parameter) (p : Parameter)
    (h : ∀ q ∈ reg, q.name ≠ p.name) : dictSet reg p = reg ++ [p] := by
  have hhas : hasName reg p.name = false := by
    unfold hasName
    rw [List.any_eq_false]
    intro x hx
    simp only [beq_iff_eq]
    exact h x hx
  simp [dictSet, hhas]

theorem dictUpdate_fresh (l : List Parameter) :
    ∀ reg : List Parameter,
      (∀ p ∈ l, ∀ q ∈ reg, q.name ≠ p.name) → (l.map Parameter.name).Nodup →
      dictUpdate reg l = reg ++ l := by
  induction l with
  | nil => intro reg _ _; simp [dictUpdate]
  | cons p l' ih =>
    intro reg hfresh hnd
    have h1 : dictSet reg p = reg ++ [p] :=
      dictSet_append_fresh reg p (fun q hq => hfresh p (List.mem_cons_self p l') q hq)
    have hpnotin : p.name ∉ l'.map Parameter.name := (List.nodup_cons.mp hnd).1
    have hnd' : (l'.map Parameter.name).Nodup := (List.nodup_cons.mp hnd).2
    have hfresh' : ∀ x ∈ l', ∀ q ∈ reg ++ [p], q.name ≠ x.name := by
      intro x hx q hq
      rcases List.mem_append.mp hq with hq | hq
      · exact hfresh x (List.mem_cons_of_mem _ hx) q hq
      · have hqp : q = p := by simpa using hq
        subst hqp
        intro he
        exact hpnotin (he ▸ List.mem_map_of_mem Parameter.name hx)
    calc dictUpdate reg (p :: l') = dictUpdate (dictSet reg p) l' := rfl
      _ = dictUpdate (reg ++ [p]) l' := by rw [h1]
      _ = (reg ++ [p]) ++ l' := ih (reg ++ [p]) hfresh' hnd'
      _ = reg ++ p :: l' := by simp

/-- C3: merging a dynamic parameter set never replaces an existing
registry entry — every incoming parameter whose address is already
claimed is excluded from the accepted set, and the merged registry is the
old registry (its entries untouched, in place) extended with the accepted
set. The hypotheses record what holds at every merge the program performs:
incoming names are `Custom_`-prefixed and pairwise distinct (they come
from a dict keyed by name), while at merge time the registry holds no
`Custom_` names (the teardown in `load_avatar_params` just removed them). -/
theorem merge_dynamic_preserves_registry (reg ps : List Parameter)
    (hnames : ∀ p ∈ ps, ∀ q ∈ reg, q.name ≠ p.name)
    (hnodup : (ps.map Parameter.name).Nodup) :
    (∀ p ∈ ps, (∃ q ∈ reg, q.address = p.address) → p ∉ (mergeDynamic reg ps).2) ∧
    (mergeDynamic reg ps).1 = reg ++ (mergeDynamic reg ps).2 := by
  constructor
  · rintro p hp ⟨q, hq, haddr⟩ hmem
    have hflt := (List.mem_filter.mp hmem).2
    rw [Bool.not_eq_true', List.any_eq_false] at hflt
    exact (hflt q hq) (by simp [haddr])
  · have hsub : ∀ p ∈ filterExistingAddresses reg ps, p ∈ ps :=
      fun p hp => (List.mem_filter.mp hp).1
    have hfr : ∀ p ∈ filterExistingAddresses reg ps, ∀ q ∈ reg, q.name ≠ p.name :=
      fun p hp => hnames p (hsub p hp)
    have hsl : List.Sublist ((filterExistingAddresses reg ps).map Parameter.name)
        (ps.map Parameter.name) := (List.filter_sublist ps).map Parameter.name
    have hnd : ((filterExistingAddresses reg ps).map Parameter.name).Nodup :=
      hnodup.sublist hsl
    exact dictUpdate_fresh (filterExistingAddresses reg ps) reg hfr hnd

/-- Witness for C3: merging `[customFresh, customClash]` into a registry
holding `inputJump` drops `customClash` (its address `/input/Jump` is
claimed) and leaves the prior registry intact as a prefix. -/
theorem merge_dynamic_preserves_registry_witness :
    customClash ∈ ([customFresh, customClash] : List Parameter) ∧
    (∃ q ∈ ([inputJump] : List Parameter), q.address = customClash.address) ∧
    customClash ∉ (mergeDynamic [inputJump] [customFresh, customClash]).2 ∧
    (mergeDynamic [inputJump] [customFresh, customClash]).1 =
      [inputJump] ++ (mergeDynamic [inputJump] [customFresh, customClash]).2 := by
  have h := merge_dynamic_preserves_registry [inputJump] [customFresh, customClash]
    (by decide) (by decide)
  refine ⟨List.mem_cons_of_mem _ (List.mem_cons_self _ _),
    ⟨inputJump, List.mem_cons_self _ _, rfl⟩, ?_, h.2⟩
  exact h.1 customClash (List.mem_cons_of_mem _ (List.mem_cons_self _ _))
    ⟨inputJump, List.mem_cons_self _ _, rfl⟩

theorem teardownAndLoad_current_id (env : Env) (s : LoaderState) (id : String) :
    (teardownAndLoad env s id).2.current_avatar_id = some id := by
  unfold teardownAndLoad
  cases env.avatarsPath with
  | none => rfl
  | some p =>
    cases env.file id with
    | missing => rfl
    | malformed => rfl
    | parsed j =>
      dsimp only
      split <;> rfl

theorem load_avatar_params_current_id (env : Env) (s : LoaderState) (id : String) :
    (loadAvatarParams env s id).2.current_avatar_id = some id := by
  unfold loadAvatarParams
  by_cases h : s.current_avatar_id = some id
  · simp [h]
  · simp [h, teardownAndLoad_current_id]

/-- C4: requesting reconciliation for an id different from the active one
runs the teardown-and-load cycle, and an immediately repeated request for
the same id returns success as a pure no-op — the registry, the session
and the broadcast log (the subscriber-visible state) are all unchanged. -/
theorem load_avatar_params_idempotent (env : Env) (s : LoaderState) (id : String) :
    (s.current_avatar_id ≠ some id →
      loadAvatarParams env s id = teardownAndLoad env s id) ∧
    loadAvatarParams env (loadAvatarParams env s id).2 id =
      (true, (loadAvatarParams env s id).2) := by
  constructor
  · intro h
    unfold loadAvatarParams
    rw [if_neg h]
  · have hid := load_avatar_params_current_id env s id
    have hunf : loadAvatarParams env (loadAvatarParams env s id).2 id =
        if (loadAvatarParams env s id).2.current_avatar_id = some id
        then (true, (loadAvatarParams env s id).2)
        else teardownAndLoad env (loadAvatarParams env s id).2 id := rfl
    rw [hunf, if_pos hid]

/-- Witness for C4: a session on `avtr_a`, a request for `avtr_b` (which
runs the cycle and fails discovery), then the same request again — the
second call is a success no-op. -/
theorem load_avatar_params_idempotent_witness :
    stateA.current_avatar_id ≠ some "avtr_b" ∧
    loadAvatarParams envNoPath stateA "avtr_b" =
      teardownAndLoad envNoPath stateA "avtr_b" ∧
    loadAvatarParams envNoPath (loadAvatarParams envNoPath stateA "avtr_b").2 "avtr_b" =
      (true, (loadAvatarParams envNoPath stateA "avtr_b").2) := by
  have h := load_avatar_params_idempotent envNoPath stateA "avtr_b"
  exact ⟨by decide, h.1 (by decide), h.2⟩

/-- Counterexample to C8 as stated: with an active session `avtr_a` and a
failing discovery, reconciling `avtr_b` does more than the teardown — it
records `avtr_b` as the current session id (so the failed id is not
retried). The claim's "no session change beyond the teardown" is false. -/
theorem load_failure_session_id_refuted : ¬ claimC8 := by
  intro h
  have h2 := h envNoPath stateA "avtr_b" (by decide) (Or.inl rfl)
  have h3 := congrArg (fun r => r.2.current_avatar_id) h2
  simp only [load_avatar_params_current_id] at h3
  have h4 : (clearCustomParams stateA).current_avatar_id = some "avtr_a" := by decide
  rw [h4] at h3
  exact absurd h3 (by decide)

/-- C8 amended: when discovery fails or the definition file is missing or
malformed, the loader ends Failed with no dynamic parameters loaded and
no state change beyond the teardown already performed — except that the
requested `entityId` is recorded as the current session id. -/
theorem load_failure_teardown_only (env : Env) (s : LoaderState) (id : String)
    (h1 : s.current_avatar_id ≠ some id)
    (h2 : env.avatarsPath = none ∨ env.file id = FileResult.missing ∨
      env.file id = FileResult.malformed) :
    loadAvatarParams env s id =
      (false, { clearCustomParams s with current_avatar_id := some id }) := by
  unfold loadAvatarParams
  rw [if_neg h1]
  unfold teardownAndLoad
  rcases h2 with h2 | h2 | h2
  · simp [h2]
  · cases hap : env.avatarsPath with
    | none => simp
    | some p => simp [h2]
  · cases hap : env.avatarsPath with
    | none => simp
    | some p => simp [h2]

/-- Witness for C8 (amended): failing discovery for `avtr_b` from the
`avtr_a` session ends Failed in exactly the teardown state plus the new
session id. -/
theorem load_failure_teardown_only_witness :
    stateA.current_avatar_id ≠ some "avtr_b" ∧
    (envNoPath.avatarsPath = none ∨ envNoPath.file "avtr_b" = FileResult.missing ∨
      envNoPath.file "avtr_b" = FileResult.malformed) ∧
    loadAvatarParams envNoPath stateA "avtr_b" =
      (false, { clearCustomParams stateA with current_avatar_id := some "avtr_b" }) :=
  ⟨by decide, Or.inl rfl,
    load_failure_teardown_only envNoPath stateA "avtr_b" (by decide) (Or.inl rfl)⟩

/-- Counterexample to C7 as stated: an avatar definition with both specs,
differing addresses and explicit bounds overrides (min 5, max 10) on a
Float inbound type still yields the default bounds (0, 1) — the parser
never reads overrides, so the claim's "unless the definition itself
overrides the bounds" clause is false. -/
theorem parse_bounds_override_refuted : ¬ claimC7 := by
  intro h
  have h2 := h "Ava" defOverride
    { address := "/avatar/parameters/Foo", type := "Float" }
    { address := "/avatar/other/Foo", type := "Int" }
    { name := "Custom_Foo", address := "/avatar/parameters/Foo", param_type := "Float",
      value := Value.vnull, min_val := 0, max_val := 1, is_input := true,
      is_output := true, category := "avatar",
      description := "自定义参数: Ava", display_name := "Foo" }
    rfl rfl (by decide) rfl
  have h4 := h2.2.2.1
  norm_num [claimedBounds, getDefaultRange, defOverride] at h4

/-- C7 amended: with both specs present (in particular with differing
addresses), the inbound address and inbound type take precedence, and the
numeric bounds are exactly the type-derived defaults — Bool (0, 1),
Int (0, 20), Float (0.0, 1.0) — regardless of any overrides the
definition carries, which the parser ignores. -/
theorem parse_inbound_precedence_default_bounds (avatarName : String) (d : AvatarDef)
    (n : String) (i o : IOSpec)
    (hn : d.name = some n) (hne : n ≠ "")
    (hi : d.input = some i) (ho : d.output = some o)
    (_haddr : i.address ≠ o.address) :
    ∃ p, parseParamDef avatarName d = some p ∧
      p.name = "Custom_" ++ n ∧ p.address = i.address ∧ p.param_type = i.type ∧
      p.min_val = (getDefaultRange i.type).1 ∧ p.max_val = (getDefaultRange i.type).2 ∧
      p.is_input = true ∧ p.is_output = true := by
  have hp : parseParamDef avatarName d = some
      { name := "Custom_" ++ n, address := i.address, param_type := i.type,
        value := Value.vnull, min_val := (getDefaultRange i.type).1,
        max_val := (getDefaultRange i.type).2, is_input := true,
        is_output := d.output.isSome, category := "avatar",
        description := "自定义参数: " ++ avatarName, display_name := n } := by
    simp only [parseParamDef, hn, hi]
    rw [if_neg hne]
  exact ⟨_, hp, rfl, rfl, rfl, rfl, rfl, rfl, by rw [ho]; rfl⟩

/-- Witness for C7 (amended) at the override-carrying definition: inbound
Float spec wins over the outbound Int spec at a different address, and
the bounds are the Float defaults (0, 1), not the overrides (5, 10). -/
theorem parse_inbound_precedence_default_bounds_witness :
    defOverride.name = some "Foo" ∧ ("Foo" : String) ≠ "" ∧
    defOverride.input = some { address := "/avatar/parameters/Foo", type := "Float" } ∧
    defOverride.output = some { address := "/avatar/other/Foo", type := "Int" } ∧
    (∃ p, parseParamDef "Ava" defOverride = some p ∧
      p.name = "Custom_" ++ "Foo" ∧ p.address = "/avatar/parameters/Foo" ∧
      p.param_type = "Float" ∧ p.min_val = 0 ∧ p.max_val = 1 ∧
      p.is_input = true ∧ p.is_output = true) := by
  have h := parse_inbound_precedence_default_bounds "Ava" defOverride "Foo"
    { address := "/avatar/parameters/Foo", type := "Float" }
    { address := "/avatar/other/Foo", type := "Int" }
    rfl (by decide) rfl rfl (by decide)
  obtain ⟨p, h1, h2, h3, h4, h5, h6, h7, h8⟩ := h
  exact ⟨rfl, by decide, rfl, rfl, ⟨p, h1, h2, h3, h4, h5, h6, h7, h8⟩⟩

/-- C9: a dequeued non-tracking event updates at most one registered
parameter — the first one in registry order whose category and address
both match gets the event value and one output broadcast, and every other
parameter is left unchanged; with no match, nothing changes and nothing
is broadcast. -/
theorem process_scan_first_match_only (wikiIndex : String → Nat)
    (category address : String) (value : Value) (reg : List Parameter)
    (hcat : category ≠ "tracking") :
    (reg.find? (fun p => p.category == category && p.address == address) = none →
      processScan wikiIndex category address value reg = (reg, [])) ∧
    (∀ pre q post, reg = pre ++ q :: post →
      (∀ x ∈ pre, (x.category == category && x.address == address) = false) →
      (q.category == category && q.address == address) = true →
      processScan wikiIndex category address value reg =
        (pre ++ { q with value := value } :: post,
         [Msg.output q.name value category])) := by
  constructor
  · induction reg with
    | nil => intro _; rfl
    | cons p rest ih =>
      intro hnone
      rw [List.find?_eq_none] at hnone
      have hp := hnone p (List.mem_cons_self p rest)
      have ih' := ih (List.find?_eq_none.mpr
        (fun x hx => hnone x (List.mem_cons_of_mem _ hx)))
      have hstep : scanStep wikiIndex category address value p = ScanAction.skip := by
        by_cases hc : p.category = category
        · have ha : ¬ p.address = address := by
            intro ha
            exact hp (by simp [hc, ha])
          simp [scanStep, hc, ha, hcat]
        · simp [scanStep, hc]
      rw [processScan_cons, hstep, ih']
  · intro pre q post hdecomp hpre hq
    subst hdecomp
    rw [Bool.and_eq_true] at hq
    have hc : q.category = category := eq_of_beq hq.1
    have ha : q.address = address := eq_of_beq hq.2
    clear hq
    revert hpre
    induction pre with
    | nil =>
      intro _
      have hstep : scanStep wikiIndex category address value q =
          ScanAction.updateBreak { q with value := value }
            (Msg.output q.name value category) := by
        simp [scanStep, hc, ha, hcat]
      rw [List.nil_append, processScan_cons, hstep]
      rfl
    | cons x pre' ih =>
      intro hpre
      have hx := hpre x (List.mem_cons_self x pre')
      have ih' := ih (fun y hy => hpre y (List.mem_cons_of_mem _ hy))
      have hstep : scanStep wikiIndex category address value x = ScanAction.skip := by
        by_cases hxc : x.category = category
        · have hxa : ¬ x.address = address := by
            intro hxa
            rw [hxc, hxa] at hx
            simp at hx
          simp [scanStep, hxc, hxa, hcat]
        · simp [scanStep, hxc]
      rw [List.cons_append, processScan_cons, hstep, ih']
      rfl

/-- Witness for C9: a camera event on an address shared by `cameraA` and
`cameraB` updates only the first match `cameraA`, broadcasts once, and
leaves `inputJump` and `cameraB` untouched. -/
theorem process_scan_first_match_only_witness :
    ("camera" : String) ≠ "tracking" ∧
    processScan (wikiIndexOf declW) "camera" "/usercamera/Zoom"
      (Value.vfloat (mkRat 3 1)) [inputJump, cameraA, cameraB] =
      ([inputJump] ++ { cameraA with value := Value.vfloat (mkRat 3 1) } :: [cameraB],
       [Msg.output cameraA.name (Value.vfloat (mkRat 3 1)) "camera"]) := by
  have h := process_scan_first_match_only (wikiIndexOf declW) "camera" "/usercamera/Zoom"
    (Value.vfloat (mkRat 3 1)) [inputJump, cameraA, cameraB] (by decide)
  exact ⟨by decide, h.2 [inputJump] cameraA [cameraB] rfl (by decide) (by decide)⟩

/-- C2: tracking notifications with fewer than six arguments are dropped
and never enqueued; with six or more, the first six are enqueued as one
tuple; and processing a tracking tuple updates exactly the parameters
whose address matches and whose declared componentIndex is within the
tuple length, each assigned the component at its own index (positionally),
with one output broadcast per updated parameter. The hypothesis records
that a parameter declares a componentIndex in `WIKI_PARAMETERS` exactly
when its category is tracking, which holds for every registry the program
builds (dynamic parameters are always category `avatar` and never appear
in `WIKI_PARAMETERS`). -/
theorem tracking_positional_update :
    (∀ (address : String) (args : List Value), args.length < 6 →
        handleTrackingMessages address args = none) ∧
    (∀ (address : String) (args : List Value), 6 ≤ args.length →
        handleTrackingMessages address args =
          some ("tracking", address, Value.vlist (args.take 6))) ∧
    (∀ (decl : String → Option Nat) (address : String) (tup : List Value)
        (reg : List Parameter),
      (∀ p ∈ reg, (decl p.name).isSome ↔ p.category = "tracking") →
      processScan (wikiIndexOf decl) "tracking" address (Value.vlist tup) reg =
        (reg.map (fun p => if trackingHit decl address tup.length p = true
            then trackingNewValue decl tup p else p),
         (reg.filter (trackingHit decl address tup.length)).map
           (fun p => Msg.output p.name (trackingNewValue decl tup p).value "tracking"))) := by
  refine ⟨?_, ?_, ?_⟩
  · intro address args h
    simp [handleTrackingMessages, h]
  · intro address args h
    have h2 : ¬ args.length < 6 := by omega
    simp [handleTrackingMessages, h2]
  · intro decl address tup reg hcat
    induction reg with
    | nil => rfl
    | cons p rest ih =>
      have hp := hcat p (List.mem_cons_self p rest)
      have ih' := ih (fun x hx => hcat x (List.mem_cons_of_mem _ hx))
      by_cases hc : p.category = "tracking"
      · have hsome : (decl p.name).isSome := hp.mpr hc
        obtain ⟨i, hi⟩ := Option.isSome_iff_exists.mp hsome
        have hidx : wikiIndexOf decl p.name = i := by simp [wikiIndexOf, hi]
        by_cases ha : p.address = address
        · by_cases hlt : i < tup.length
          · have hstep : scanStep (wikiIndexOf decl) "tracking" address
                (Value.vlist tup) p =
                ScanAction.updateContinue (trackingNewValue decl tup p)
                  (Msg.output p.name ((trackingNewValue decl tup p).value) "tracking") := by
              simp [scanStep, hc, ha, hidx, hlt, trackingNewValue]
            have hhit : trackingHit decl address tup.length p = true := by
              simp [trackingHit, ha, hi, hlt]
            rw [processScan_cons, hstep, ih']
            simp [List.map_cons, List.filter_cons, hhit]
          · have hstep : scanStep (wikiIndexOf decl) "tracking" address
                (Value.vlist tup) p = ScanAction.skip := by
              simp [scanStep, hc, ha, hidx, hlt]
            have hhit : trackingHit decl address tup.length p = false := by
              simp [trackingHit, ha, hi, hlt]
            rw [processScan_cons, hstep, ih']
            simp [List.map_cons, List.filter_cons, hhit]
        · have hstep : scanStep (wikiIndexOf decl) "tracking" address
              (Value.vlist tup) p = ScanAction.skip := by
            simp [scanStep, hc, ha]
          have hhit : trackingHit decl address tup.length p = false := by
            simp [trackingHit, ha]
          rw [processScan_cons, hstep, ih']
          simp [List.map_cons, List.filter_cons, hhit]
      · have hnone : decl p.name = none := by
          cases hd : decl p.name with
          | none => rfl
          | some v => exact absurd (hp.mp (by simp [hd])) hc
        have hstep : scanStep (wikiIndexOf decl) "tracking" address
            (Value.vlist tup) p = ScanAction.skip := by
          simp [scanStep, hc]
        have hhit : trackingHit decl address tup.length p = false := by
          simp [trackingHit, hnone]
        rw [processScan_cons, hstep, ih']
        simp [List.map_cons, List.filter_cons, hhit]

/-- Witness for C2: a five-argument notification is dropped; a six-tuple
on the head-pose address updates exactly `Tracking_HeadPosX` (index 0,
component 1) and `Tracking_HeadRotX` (index 3, component 4), with one
broadcast each, leaving `Input_Jump` untouched. -/
theorem tracking_positional_update_witness :
    handleTrackingMessages "/tracking/vrsystem/head/pose"
      [Value.vfloat (mkRat 1 1), Value.vfloat (mkRat 2 1), Value.vfloat (mkRat 3 1),
       Value.vfloat (mkRat 4 1), Value.vfloat (mkRat 5 1)] = none ∧
    (∀ p ∈ trackingRegistry, (declW p.name).isSome ↔ p.category = "tracking") ∧
    processScan (wikiIndexOf declW) "tracking" "/tracking/vrsystem/head/pose"
      (Value.vlist trackingTuple) trackingRegistry =
      (trackingRegistry.map (fun p =>
        if trackingHit declW "/tracking/vrsystem/head/pose" trackingTuple.length p = true
        then trackingNewValue declW trackingTuple p else p),
       (trackingRegistry.filter
          (trackingHit declW "/tracking/vrsystem/head/pose" trackingTuple.length)).map
         (fun p => Msg.output p.name (trackingNewValue declW trackingTuple p).value
           "tracking")) ∧
    (processScan (wikiIndexOf declW) "tracking" "/tracking/vrsystem/head/pose"
      (Value.vlist trackingTuple) trackingRegistry).2 =
      [Msg.output "Tracking_HeadPosX" (Value.vfloat (mkRat 1 1)) "tracking",
       Msg.output "Tracking_HeadRotX" (Value.vfloat (mkRat 4 1)) "tracking"] := by
  refine ⟨tracking_positional_update.1 "/tracking/vrsystem/head/pose" _ (by decide),
    by decide,
    tracking_positional_update.2.2 declW "/tracking/vrsystem/head/pose"
      trackingTuple trackingRegistry (by decide), rfl⟩

end VRChatOSC
